import Mathlib

/-!
Shallow embedding of the wherewolf-chatbot conversation state machine and
human-handoff orchestrator.

The repository holds two overlapping revisions of the same Express server:
`src/server.js` (the named main file) and `src/unnamed/part_000` (an
alternative revision of the same file, with a weather branch, a first-message
contact-form check and an `alertPreference` check that `server.js` lacks).
Both revisions' `/api/chat` handlers are embedded below as pure step
functions (`chatStep` for `server.js`, `chatStepV0` for `part_000`), the
polling endpoint, the dashboard send-message endpoint, the contact-info
endpoint, the contact-update database function and the hourly cache sweep.

External capabilities (Claude completion, Twilio SMS, nodemailer email,
the weather API) are modelled as oracle inputs carried in the environment:
the embedding records faithfully *whether* each capability is invoked and how
its success or failure is folded into the reply, which is what the claims are
about.  The JavaScript regular-expression tests for email and phone patterns
(`emailRegex.test`, `phoneRegex.test`, `extractPhoneFromMessage` — the latter
two use the identical regex literal) are likewise modelled as oracle fields of
the input (`emailMatch`, `phoneMatch`): the branch logic only consumes the
matched substring.  All keyword matching (`String.prototype.includes` on the
lowercased message) is embedded concretely.
-/

namespace Wherewolf

/-- `charsHasPrefix p s` is true when the character list `p` is a prefix of `s`. -/
def charsHasPrefix : List Char → List Char → Bool
  | [], _ => true
  | _ :: _, [] => false
  | p :: ps, c :: cs => p == c && charsHasPrefix ps cs

/-- `charsContains pat s`: `pat` occurs as a contiguous substring of `s`. -/
def charsContains (pat : List Char) : List Char → Bool
  | [] => pat.isEmpty
  | c :: cs => charsHasPrefix pat (c :: cs) || charsContains pat cs

/-- JavaScript `s.includes(pat)`: substring containment on the code points. -/
def jsIncludes (s pat : String) : Bool :=
  charsContains pat.data s.data

/-- JavaScript `s.replace(/\D/g, '')`: keep only the digits (used by the
part_000 revision to compare phone numbers). -/
def digitsOnly (s : String) : String :=
  ⟨s.data.filter Char.isDigit⟩

/-- JavaScript `s.toLowerCase()` on the code-point list (`String.toLower`
itself is not kernel-reducible; the messages at issue are ASCII, where the two
agree). -/
def jsToLower (s : String) : String :=
  ⟨s.data.map Char.toLower⟩

/-- JavaScript `s.trim()`: strip whitespace from both ends. -/
def jsTrim (s : String) : String :=
  ⟨((s.data.dropWhile Char.isWhitespace).reverse.dropWhile Char.isWhitespace).reverse⟩

/-- JavaScript `s.split(',')` on the code-point list. -/
def splitOnComma : List Char → List (List Char)
  | [] => [[]]
  | c :: cs =>
    if c == ',' then [] :: splitOnComma cs
    else
      match splitOnComma cs with
      | [] => [[c]]
      | g :: gs => (c :: g) :: gs

/-- JavaScript `s.replace(pat, repl)` with a string pattern: replace the first
occurrence only. -/
def replaceFirstChars (pat repl : List Char) : List Char → List Char
  | [] => []
  | c :: cs =>
    if charsHasPrefix pat (c :: cs) then repl ++ (c :: cs).drop pat.length
    else c :: replaceFirstChars pat repl cs

/-- JavaScript `s.replace(pat, repl)` lifted to `String`. -/
def replaceFirst (s pat repl : String) : String :=
  ⟨replaceFirstChars pat.data repl.data s.data⟩

/-- `CONFIG.DEFAULT_RESPONSE_TIME` in server.js. -/
def defaultResponseTime : String := "30 minutes"

/-- `CONFIG.DEFAULT_CONTACT_METHODS` in server.js. -/
def defaultContactMethods : String := "email and phone"

/-- `CONFIG.DEFAULT_BRAND_COLOR` in server.js. -/
def defaultBrandColor : String := "#8B5CF6"

/-- An entry of the in-memory `customerContacts` map (per session key). -/
structure Contact where
  email : Option String := none
  phone : Option String := none
  deriving Repr, DecidableEq

/-- The operator configuration fields read by the chat endpoints.  A JS value
that is `undefined`, `null` or the empty string is falsy at every use site
below, so such fields are modelled as `Option String` with `none` for the
falsy case. -/
structure Config where
  businessName : Option String := none
  businessType : Option String := none
  responseTime : Option String := none
  contactMethods : Option String := none
  smsEnabled : Option String := none
  alertPreference : Option String := none
  handoffTriggers : Option String := none
  bookingLink : Option String := none
  waiverLink : Option String := none
  smsFirstMessage : Option String := none
  smsHandoffMessage : Option String := none
  businessSmsNumber : Option String := none
  brandColor : Option String := none
  responseLength : Option String := none
  chatbotTone : Option String := none
  location : Option String := none
  times : List String := []
  weatherEnabled : Bool := false
  weatherLocation : Option String := none
  deriving Repr, DecidableEq

/-- `defaultAgentKeywords` from the chat endpoint (identical in both
revisions). -/
def defaultAgentKeywords : List String :=
  ["agent", "human", "speak to someone", "talk to someone",
   "representative", "person", "staff", "manager", "urgent",
   "speak with human", "speak with an agent", "speak human",
   "talk to human", "talk with human", "real person",
   "customer service", "help me", "support"]

/-- `customTriggers`: the operator-configured handoff triggers, comma-split,
trimmed and lowercased. -/
def customTriggers (cfg : Config) : List String :=
  match cfg.handoffTriggers with
  | none => []
  | some s => (splitOnComma s.data).map (fun t => jsToLower (jsTrim ⟨t⟩))

/-- The `isAgentRequest` computation of the chat endpoint (identical in both
revisions): keyword union plus the compound heuristics. -/
def isAgentRequest (cfg : Config) (lowerMessage : String) : Bool :=
  let allAgentKeywords := defaultAgentKeywords ++ customTriggers cfg
  allAgentKeywords.any (fun keyword => jsIncludes lowerMessage keyword) ||
    jsIncludes lowerMessage "call me" ||
    (jsIncludes lowerMessage "speak" && jsIncludes lowerMessage "human") ||
    (jsIncludes lowerMessage "talk" && jsIncludes lowerMessage "human") ||
    (jsIncludes lowerMessage "connect" && jsIncludes lowerMessage "agent") ||
    (jsIncludes lowerMessage "phone" && jsIncludes lowerMessage "call" &&
      lowerMessage.length < 20)

/-- The request-independent state and capability oracles a single `/api/chat`
request sees.  `handoffFlag` is `conversations['handoff_' + sessionKey]`,
`memContact` is `customerContacts[sessionKey]`, `convEmail`/`convPhone` are
the conversation row's stored contact columns, `dbAgentRequested` is the
durable `agent_requested` column (fetched by neither revision's chat handler —
a fact claim C10 is about), `smsOk` is the Twilio call outcome, `llmText` the
Claude completion outcome (`none` = transport/provider failure),
`weatherOk`/`weatherReplyText` the weather lookup and formatting outcomes, and
`userMessageCount` the stored user-message count (used only by part_000). -/
structure ChatEnv where
  cfg : Config
  memContact : Option Contact := none
  handoffFlag : Bool := false
  dbAgentRequested : Bool := false
  convEmail : Option String := none
  convPhone : Option String := none
  emailTransporter : Bool := false
  smsOk : Bool := false
  llmText : Option String := none
  userMessageCount : Nat := 2
  weatherOk : Bool := false
  weatherReplyText : Option String := none
  envTwilioPhone : Option String := none
  deriving Repr, DecidableEq

/-- One inbound customer message, with the regex-test oracles: `emailMatch` is
`message.match(emailRegex)` and `phoneMatch` is `message.match(phoneRegex)`
(`extractPhoneFromMessage` uses the identical regex literal, so it is the same
oracle). -/
structure ChatInput where
  message : String
  emailMatch : Option String := none
  phoneMatch : Option String := none
  deriving Repr, DecidableEq

/-- Which handling branch of the chat endpoint produced the response. -/
inductive Branch where
  | contactForm
  | weatherReply
  | weatherFallback
  | hTextChoice
  | hUseExistingPhone
  | hSamePhone
  | hPhoneHybrid
  | hContinueChat
  | hEmailCapture
  | hPhoneDisabled
  | hRepeatRequest
  | aiOnly
  | initialHandoff
  | waiver
  | pricing
  | booking
  | smsFirstPhone
  | locationInfo
  | timesInfo
  | llmReply
  | llmFallback
  deriving Repr, DecidableEq

/-- The observable outcome of one `/api/chat` request: the branch taken, the
reply text, which external capabilities were invoked (`emailSent` =
`sendHandoffEmail` reached with a configured transporter, `smsAttempted` =
`sendSMS` called, `llmCalled` = the Claude completion requested), the
state-machine side effects (`agentMarked` = `markAgentRequested`,
`handoffFlagAfter` = value of the in-memory handoff flag afterwards,
`memContactAfter` = `customerContacts[sessionKey]` afterwards), the
`updateCustomerContact` arguments (`dbEmail`, `dbPhone`), the assistant
message appended to the durable transcript, and the HTTP success flag. -/
structure ChatResult where
  branch : Branch
  reply : Option String := none
  savedAssistant : Option String := none
  emailSent : Bool := false
  smsAttempted : Bool := false
  smsTo : Option String := none
  llmCalled : Bool := false
  agentMarked : Bool := false
  handoffFlagAfter : Bool
  memContactAfter : Option Contact
  dbEmail : Option String := none
  dbPhone : Option String := none
  success : Bool := true
  deriving Repr, DecidableEq

/-- `{ ...customerContacts[sessionKey], phone }`. -/
def mergePhone (mc : Option Contact) (p : String) : Option Contact :=
  some (match mc with
    | some c => { c with phone := some p }
    | none => { phone := some p })

/-- `{ ...customerContacts[sessionKey], email }`. -/
def mergeEmail (mc : Option Contact) (e : String) : Option Contact :=
  some (match mc with
    | some c => { c with email := some e }
    | none => { email := some e })

/-- A plain canned-reply outcome: reply emitted and persisted as an assistant
message, no side effects beyond that. -/
def replyResult (env : ChatEnv) (b : Branch) (text : String) : ChatResult :=
  { branch := b, reply := some text, savedAssistant := some text,
    handoffFlagAfter := env.handoffFlag, memContactAfter := env.memContact }

/-- The welcome SMS body: `smsFirstMessage.replace('{BUSINESS_NAME}', name)`
with the template-literal default when that is empty. -/
def welcomeSMS (cfg : Config) : String :=
  let businessName := cfg.businessName.getD "Our Business"
  let smsFirstMessage := cfg.smsFirstMessage.getD ""
  let replaced := replaceFirst smsFirstMessage "{BUSINESS_NAME}" businessName
  if replaced == "" then
    "Hi! This is " ++ businessName ++ ". Thanks for reaching out! How can we help you today?"
  else replaced

/-- server.js handoff follow-up, "text"/"sms" choice in hybrid mode (lines
1172-1207): persist the phone, send the welcome SMS immediately, send the
handoff email when a transporter is configured. -/
def textChoiceResult (env : ChatEnv) (p : String) : ChatResult :=
  let text := if env.smsOk then
      "Perfect! 📱 I've sent you a text at " ++ p ++
        ". Continue our conversation there - our team will join you shortly!"
    else
      "I have your number (" ++ p ++ "). Our team will text you shortly!"
  { branch := .hTextChoice, reply := some text, savedAssistant := some text,
    emailSent := env.emailTransporter, smsAttempted := true, smsTo := some p,
    handoffFlagAfter := env.handoffFlag,
    memContactAfter := mergePhone env.memContact p, dbPhone := some p }

/-- server.js handoff follow-up, phone-number submission in hybrid mode
(lines 1210-1243). -/
def phoneHybridResult (env : ChatEnv) (p : String) : ChatResult :=
  let text := if env.smsOk then
      "Perfect! 📱 I've sent you a text at " ++ p ++
        ". Continue our conversation there, and our team will join you shortly!"
    else
      "I have your number (" ++ p ++ "). Our team will text you shortly!"
  { branch := .hPhoneHybrid, reply := some text, savedAssistant := some text,
    emailSent := env.emailTransporter, smsAttempted := true, smsTo := some p,
    handoffFlagAfter := env.handoffFlag,
    memContactAfter := mergePhone env.memContact p, dbPhone := some p }

/-- server.js handoff follow-up, "continue chatting here" choice (lines
1246-1265). -/
def continueChatResult (env : ChatEnv) : ChatResult :=
  let rt := env.cfg.responseTime.getD defaultResponseTime
  let text := "Perfect! Our team will join this chat to assist you personally. They typically respond within "
    ++ rt ++ ". \n                \nWhile you wait, could I get your email or phone number so they can follow up if needed?"
  { replyResult env .hContinueChat text with emailSent := env.emailTransporter }

/-- server.js handoff follow-up, email collection (lines 1268-1281). -/
def emailCaptureResult (env : ChatEnv) (e : String) : ChatResult :=
  let rt := env.cfg.responseTime.getD defaultResponseTime
  let text := "Perfect! I've saved your email (" ++ e ++
    ") and our team has been notified. They'll reach out within " ++ rt ++
    ". Is there anything else I can help you with while you wait?"
  { branch := .hEmailCapture, reply := some text, savedAssistant := some text,
    emailSent := env.emailTransporter,
    handoffFlagAfter := env.handoffFlag,
    memContactAfter := mergeEmail env.memContact e, dbEmail := some e }

/-- server.js handoff follow-up, phone collection in disabled-SMS mode (lines
1284-1297). -/
def phoneDisabledResult (env : ChatEnv) (p : String) : ChatResult :=
  let rt := env.cfg.responseTime.getD defaultResponseTime
  let text := "Perfect! I've saved your phone number (" ++ p ++
    ") and our team has been notified. They'll call you within " ++ rt ++
    ". Is there anything else I can help you with while you wait?"
  { branch := .hPhoneDisabled, reply := some text, savedAssistant := some text,
    emailSent := env.emailTransporter,
    handoffFlagAfter := env.handoffFlag,
    memContactAfter := mergePhone env.memContact p, dbPhone := some p }

/-- server.js handoff follow-up, repeat agent request (lines 1299-1305): a
fixed acknowledgment, no notification side effect. -/
def repeatRequestResult (env : ChatEnv) : ChatResult :=
  let rt := env.cfg.responseTime.getD defaultResponseTime
  replyResult env .hRepeatRequest
    ("Our team has already been notified and will reach out within " ++ rt ++
      "! Is there anything else I can help you with while you wait, or would you like me to provide our direct contact information?")

/-- server.js `/api/chat` escalation follow-up block (lines 1162-1306),
entered only when the in-memory handoff flag is set.  `none` means no inner
branch returned and control falls through to the rest of the handler. -/
def handoffFollowUp (env : ChatEnv) (i : ChatInput) (lower : String)
    (agentReq : Bool) : Option ChatResult :=
  let smsEnabled := env.cfg.smsEnabled.getD "disabled"
  let phone1 := (env.memContact.bind Contact.phone).orElse fun _ => i.phoneMatch
  match (if (jsIncludes lower "text" || jsIncludes lower "sms") && smsEnabled == "hybrid"
      then phone1 else none) with
  | some p => some (textChoiceResult env p)
  | none =>
    match (if smsEnabled == "hybrid" then i.phoneMatch else none) with
    | some p => some (phoneHybridResult env p)
    | none =>
      if jsIncludes lower "continue chatting" || jsIncludes lower "chat here" ||
          (jsIncludes lower "prefer" && jsIncludes lower "here") then
        some (continueChatResult env)
      else
        match i.emailMatch with
        | some e => some (emailCaptureResult env e)
        | none =>
          match (if smsEnabled == "disabled" then i.phoneMatch else none) with
          | some p => some (phoneDisabledResult env p)
          | none =>
            if agentReq then some (repeatRequestResult env) else none

/-- server.js initial agent-request handling (lines 1308-1350): mark the
conversation, set the in-memory handoff flag, reply according to the SMS mode,
and send the handoff email unless in hybrid mode.  server.js has no
`alertPreference` check on this path. -/
def initialHandoffResult (env : ChatEnv) : ChatResult :=
  let rt := env.cfg.responseTime.getD defaultResponseTime
  let smsEnabled := env.cfg.smsEnabled.getD "disabled"
  let text :=
    if smsEnabled == "hybrid" then
      "Perfect! I'll connect you with our team. Would you prefer to continue chatting here, or we can text you so you can reply on the go?\n\nJust type \"text\" for mobile messaging or \"chat\" to continue here.\n\nOur team typically responds within "
        ++ rt ++ "."
    else if smsEnabled == "sms-first" then
      "I'd be happy to connect you with our team! What's your mobile number so we can start a text conversation?"
    else
      "I'd be happy to connect you with our team! They'll reach out within "
        ++ rt ++ ". Could I get your contact information?"
  { branch := .initialHandoff, reply := some text, savedAssistant := some text,
    emailSent := smsEnabled != "hybrid" && env.emailTransporter,
    agentMarked := true, handoffFlagAfter := true,
    memContactAfter := env.memContact }

/-- server.js waiver branch (lines 1352-1358): always replies with the link,
defaulting to the literal "No waiver link provided.". -/
def waiverResult (env : ChatEnv) : ChatResult :=
  let waiverLink := env.cfg.waiverLink.getD "No waiver link provided."
  let brand := env.cfg.brandColor.getD defaultBrandColor
  replyResult env .waiver
    ("Here's your waiver: <a href='" ++ waiverLink ++
      "' target='_blank' style='color: " ++ brand ++ ";'>Click here to sign</a>")

/-- server.js pricing branch (lines 1360-1368), taken only with a configured
booking link. -/
def pricingResult (env : ChatEnv) (bookingLink : String) : ChatResult :=
  let brand := env.cfg.brandColor.getD defaultBrandColor
  replyResult env .pricing
    ("For current pricing and availability, please check our booking system: <a href='"
      ++ bookingLink ++ "' target='_blank' style='color: " ++ brand ++
      ";'>View prices and book here</a>. Our team can also help with pricing questions if you need assistance!")

/-- server.js booking branch (lines 1370-1376). -/
def bookingResult (env : ChatEnv) (bookingLink : String) : ChatResult :=
  let brand := env.cfg.brandColor.getD defaultBrandColor
  replyResult env .booking
    ("Ready to book? <a href='" ++ bookingLink ++
      "' target='_blank' style='color: " ++ brand ++
      ";'>Click here to book online</a> or speak to someone from our team for assistance!")

/-- The fixed Responder fallback sentence of the `claudeError` catch block
(identical in both revisions). -/
def llmFallbackText : String :=
  "Sorry, I'm having connection issues. For immediate help, please speak to someone from our team!"

/-- server.js free-form Responder branch (lines 1378-1428): call the Claude
completion; on success persist and return its text, on any failure persist and
return the fixed fallback sentence, in both cases with an HTTP success
response. -/
def llmResult (env : ChatEnv) : ChatResult :=
  match env.llmText with
  | some t =>
    { replyResult env .llmReply t with llmCalled := true }
  | none =>
    { replyResult env .llmFallback llmFallbackText with llmCalled := true }

/-- The `/api/chat` handler of `src/server.js` (lines 1092-1438) as a pure
step function, after the user message has been appended to the transcript:
escalation follow-up when the handoff flag is set (falling through when no
inner branch matches), then initial agent request, waiver, pricing, booking,
and finally the Claude completion. -/
def chatStep (env : ChatEnv) (i : ChatInput) : ChatResult :=
  let lower := jsToLower i.message
  let agentReq := isAgentRequest env.cfg lower
  match (if env.handoffFlag then handoffFollowUp env i lower agentReq else none) with
  | some r => r
  | none =>
    if agentReq && !env.handoffFlag then initialHandoffResult env
    else if jsIncludes lower "waiver" || jsIncludes lower "form" ||
        jsIncludes lower "sign" || jsIncludes lower "release" then
      waiverResult env
    else
      match (if jsIncludes lower "price" || jsIncludes lower "cost" ||
          jsIncludes lower "pricing" then env.cfg.bookingLink else none) with
      | some bl => pricingResult env bl
      | none =>
        match (if jsIncludes lower "book" || jsIncludes lower "reserve" ||
            jsIncludes lower "schedule" then env.cfg.bookingLink else none) with
        | some bl => bookingResult env bl
        | none => llmResult env

/-- The weather keyword list of the part_000 revision (lines 1815-1820). -/
def weatherKeywords : List String :=
  ["weather", "temperature", "temp", "hot", "cold", "warm", "cool",
   "rain", "rainy", "raining", "sunny", "cloudy", "overcast",
   "forecast", "conditions", "climate", "degrees", "humid",
   "windy", "wind", "storm", "clear", "nice day", "beautiful day"]

/-- part_000 weather branch (lines 1813-1857), evaluated before the handoff
and agent-request checks: on a weather question, reply with the formatted
lookup result, or a deflection naming the team when the lookup fails; when
the lookup succeeds but formatting yields nothing, fall through (`none`).
The JS deflection interpolates `currentConfig.weatherLocation`, which renders
as the text "undefined" when unset. -/
def weatherBranch (env : ChatEnv) (lower : String) : Option ChatResult :=
  if env.cfg.weatherEnabled &&
      weatherKeywords.any (fun keyword => jsIncludes lower keyword) then
    if env.weatherOk then
      match env.weatherReplyText with
      | some wr => some (replyResult env .weatherReply wr)
      | none => none
    else
      some (replyResult env .weatherFallback
        ("For current weather conditions in " ++
          env.cfg.weatherLocation.getD "undefined" ++
          ", please speak to someone from our team who can provide real-time updates!"))
  else none

/-- part_000 handoff follow-up, "use my existing phone" sub-branch inside the
"text"/"sms" choice (lines 1900-1932): the contact was already re-saved as
`p`, the SMS goes to the previously known number `q`. -/
def useExistingPhoneResult (env : ChatEnv) (p q : String) : ChatResult :=
  let text := if env.smsOk then
      "Perfect! 📱 I've sent you a text at " ++ q ++
        ". Continue our conversation there - our team will join you shortly!"
    else
      "I have your number (" ++ q ++ "). Our team will text you shortly!"
  { branch := .hUseExistingPhone, reply := some text, savedAssistant := some text,
    emailSent := env.emailTransporter, smsAttempted := true, smsTo := some q,
    handoffFlagAfter := env.handoffFlag,
    memContactAfter := mergePhone env.memContact p, dbPhone := some p }

/-- part_000 handoff follow-up, same-digits shortcut of the phone-submission
branch (lines 1967-1997): SMS to the already-stored number, with no contact
update. -/
def samePhoneResult (env : ChatEnv) (q : String) : ChatResult :=
  let text := if env.smsOk then
      "Perfect! 📱 I've sent you a text at " ++ q ++
        ". Continue our conversation there - our team will join you shortly!"
    else
      "I have your number (" ++ q ++ "). Our team will text you shortly!"
  { branch := .hSamePhone, reply := some text, savedAssistant := some text,
    emailSent := env.emailTransporter, smsAttempted := true, smsTo := some q,
    handoffFlagAfter := env.handoffFlag, memContactAfter := env.memContact }

/-- part_000 `/api/chat` escalation follow-up block (lines 1883-2092).  The
differences from server.js: the candidate phone also falls back to the
conversation row's stored number, the "use my existing phone" sub-branch, and
the same-digits shortcut on phone submission.  Branches 3-6 are identical to
server.js and reuse its result builders. -/
def handoffFollowUpV0 (env : ChatEnv) (i : ChatInput) (lower : String)
    (agentReq : Bool) : Option ChatResult :=
  let smsEnabled := env.cfg.smsEnabled.getD "disabled"
  let memPhone := env.memContact.bind Contact.phone
  let phone1 := (memPhone.orElse fun _ => env.convPhone).orElse fun _ => i.phoneMatch
  match (if (jsIncludes lower "text" || jsIncludes lower "sms") && smsEnabled == "hybrid"
      then phone1 else none) with
  | some p =>
    if jsIncludes lower "use my existing phone" || jsIncludes lower "existing phone" then
      match memPhone.orElse fun _ => env.convPhone with
      | some q => some (useExistingPhoneResult env p q)
      | none => some (textChoiceResult env p)
    else some (textChoiceResult env p)
  | none =>
    match (if smsEnabled == "hybrid" then i.phoneMatch else none) with
    | some p =>
      match memPhone.orElse fun _ => env.convPhone with
      | some q =>
        if digitsOnly q == digitsOnly p then some (samePhoneResult env q)
        else some (phoneHybridResult env p)
      | none => some (phoneHybridResult env p)
    | none =>
      if jsIncludes lower "continue chatting" || jsIncludes lower "chat here" ||
          (jsIncludes lower "prefer" && jsIncludes lower "here") then
        some (continueChatResult env)
      else
        match i.emailMatch with
        | some e => some (emailCaptureResult env e)
        | none =>
          match (if smsEnabled == "disabled" then i.phoneMatch else none) with
          | some p => some (phoneDisabledResult env p)
          | none =>
            if agentReq then some (repeatRequestResult env) else none

/-- part_000 `alertPreference === 'none'` branch (lines 2100-2112): no
escalation, no notification, a self-service deflection reply. -/
def aiOnlyResult (env : ChatEnv) : ChatResult :=
  replyResult env .aiOnly
    ("I'm here to help you with any questions about our " ++
      env.cfg.businessType.getD "tours" ++
      "! I can provide information about pricing, schedules, locations, and policies. What specific information can I help you find?")

/-- The hybrid choice reply of part_000 when a phone number is already on
file (lines 2140-2176). -/
def hybridChoiceWithPhoneText (rt : String) (existingEmail : Option String)
    (ph formatted : String) : String :=
  "I'd be happy to connect you with our team! They'll reach out within " ++ rt ++ ". \n\nI have your contact info: " ++
    (match existingEmail with | some e => "📧 " ++ e | none => "") ++ " " ++
    ("📱 " ++ ph) ++
    "\n\nChoose how you'd like to continue:\n\n<div style=\"margin: 15px 0; text-align: center;\">\n    <button onclick=\"selectChatChoice('chat')\" style=\"\n        display: block;\n        width: 100%;\n        margin: 8px 0;\n        padding: 12px;\n        background: #8B5CF6;\n        color: white;\n        border: none;\n        border-radius: 8px;\n        font-weight: 600;\n        cursor: pointer;\n        font-size: 14px;\n    \" class=\"choice-btn\">Continue chatting here 💬</button>\n    \n    <button onclick=\"sendMessageToServer('" ++ ph ++ "')\" style=\"\n        display: block;\n        width: 100%;\n        margin: 8px 0;\n        padding: 12px;\n        background: #10b981;\n        color: white;\n        border: none;\n        border-radius: 8px;\n        font-weight: 600;\n        cursor: pointer;\n        font-size: 14px;\n    \" class=\"choice-btn\">Text me at " ++ ph ++ " 📱</button>\n</div>\n\n" ++ formatted

/-- The hybrid choice reply of part_000 when no phone number is known yet
(lines 2179-2213). -/
def hybridChoiceAskText (rt formatted : String) : String :=
  "I'd be happy to connect you with our team! They'll reach out within " ++ rt ++ ". \n\nChoose how you'd like to continue:\n\n<div style=\"margin: 15px 0; text-align: center;\">\n    <button onclick=\"selectChatChoice('chat')\" style=\"\n        display: block;\n        width: 100%;\n        margin: 8px 0;\n        padding: 12px;\n        background: #8B5CF6;\n        color: white;\n        border: none;\n        border-radius: 8px;\n        font-weight: 600;\n        cursor: pointer;\n        font-size: 14px;\n    \" class=\"choice-btn\">Continue chatting here 💬</button>\n    \n    <button onclick=\"selectChatChoice('sms')\" style=\"\n        display: block;\n        width: 100%;\n        margin: 8px 0;\n        padding: 12px;\n        background: #10b981;\n        color: white;\n        border: none;\n        border-radius: 8px;\n        font-weight: 600;\n        cursor: pointer;\n        font-size: 14px;\n    \" class=\"choice-btn\">Switch to text messaging 📱</button>\n</div>\n\n" ++ formatted

/-- part_000 initial agent-request handling once `alertPreference` is not
"none" (lines 2114-2256): mark the conversation, set the handoff flag, build
the mode-dependent reply, and send the handoff email only when
`alertPreference` is "email" and a transporter is configured. -/
def initialHandoffV0Result (env : ChatEnv) : ChatResult :=
  let ap := env.cfg.alertPreference.getD "email"
  let rt := env.cfg.responseTime.getD defaultResponseTime
  let cm := env.cfg.contactMethods.getD defaultContactMethods
  let smsEnabled := env.cfg.smsEnabled.getD "disabled"
  let text :=
    if smsEnabled == "hybrid" then
      let existingPhone := (env.memContact.bind Contact.phone).orElse fun _ => env.convPhone
      let existingEmail := (env.memContact.bind Contact.email).orElse fun _ => env.convEmail
      match env.cfg.businessSmsNumber.orElse fun _ => env.envTwilioPhone with
      | some n =>
        let formatted := replaceFirst
          (env.cfg.smsHandoffMessage.getD
            "💬 Prefer to text? You can also reach us at {PHONE_NUMBER} for mobile chat!")
          "{PHONE_NUMBER}" n
        match existingPhone with
        | some ph => hybridChoiceWithPhoneText rt existingEmail ph formatted
        | none => hybridChoiceAskText rt formatted
      | none =>
        "I'd be happy to connect you with our team! They'll reach out within "
          ++ rt ++ " via " ++ cm ++ ". Could I get your contact information?"
    else if smsEnabled == "sms-first" then
      "Great! I'd love to connect you with our team via text message for faster assistance.\n\nCould you please provide your mobile number? We'll send you a quick text to get you connected with one of our team members who can help personally.\n\nOnce I have your number, our team will typically respond within "
        ++ rt ++ "."
    else
      "I'd be happy to connect you with our team! They'll reach out within "
        ++ rt ++ " via " ++ cm ++ ". Could I get your contact information?"
  let text := if text == "" then
      "I'd be happy to connect you with our team! They'll reach out within "
        ++ rt ++ ". Please provide your contact information so they can assist you."
    else text
  { branch := .initialHandoff, reply := some text, savedAssistant := some text,
    emailSent := ap == "email" && env.emailTransporter,
    agentMarked := true, handoffFlagAfter := true,
    memContactAfter := env.memContact }

/-- part_000 sms-first phone capture branch (lines 2290-2326): persist the
number, send the welcome SMS, send the handoff email when a transporter is
configured. -/
def smsFirstPhoneResult (env : ChatEnv) (p : String) : ChatResult :=
  let text := if env.smsOk then
      "Perfect! 📱 I've sent you a text at " ++ p ++ ". Continue our conversation there!"
    else
      "I have your number (" ++ p ++ "). Our team will text you shortly!"
  { branch := .smsFirstPhone, reply := some text, savedAssistant := some text,
    emailSent := env.emailTransporter, smsAttempted := true, smsTo := some p,
    handoffFlagAfter := env.handoffFlag,
    memContactAfter := mergePhone env.memContact p, dbPhone := some p }

/-- The `/api/chat` handler of `src/unnamed/part_000` (lines 1739-2417) as a
pure step function: first-message contact form, then weather, then the
escalation follow-up (when the handoff flag is set), then initial agent
request guarded by `alertPreference`, then waiver, pricing, booking,
sms-first phone, location, times, and finally the Claude completion. -/
def chatStepV0 (env : ChatEnv) (i : ChatInput) : ChatResult :=
  if env.userMessageCount == 1 && env.convEmail.isNone && env.convPhone.isNone then
    { branch := .contactForm, handoffFlagAfter := env.handoffFlag,
      memContactAfter := env.memContact }
  else
    let lower := jsToLower i.message
    let brand := env.cfg.brandColor.getD defaultBrandColor
    match weatherBranch env lower with
    | some r => r
    | none =>
      let agentReq := isAgentRequest env.cfg lower
      match (if env.handoffFlag then handoffFollowUpV0 env i lower agentReq else none) with
      | some r => r
      | none =>
        if agentReq && !env.handoffFlag then
          if env.cfg.alertPreference.getD "email" == "none" then aiOnlyResult env
          else initialHandoffV0Result env
        else if jsIncludes lower "waiver" || jsIncludes lower "form" ||
            jsIncludes lower "sign" || jsIncludes lower "release" then
          match env.cfg.waiverLink with
          | some w =>
            if jsTrim w != "" && w != "No waiver link provided." then
              replyResult env .waiver
                ("Here's your waiver: <a href='" ++ w ++
                  "' target='_blank' style='color: " ++ brand ++ ";'>Click here to sign</a>")
            else
              replyResult env .waiver
                "I'm not sure about waiver requirements. Please speak to someone from our team who can provide you with the most current waiver information."
          | none =>
            replyResult env .waiver
              "I'm not sure about waiver requirements. Please speak to someone from our team who can provide you with the most current waiver information."
        else
          match (if jsIncludes lower "price" || jsIncludes lower "cost" ||
              jsIncludes lower "pricing" then
              (env.cfg.bookingLink.filter fun bl => jsTrim bl != "") else none) with
          | some bl =>
            replyResult env .pricing
              ("For current pricing and availability, please check our booking system: <a href='"
                ++ bl ++ "' target='_blank' style='color: " ++ brand ++
                "; text-decoration: underline;'>View prices and book here</a>")
          | none =>
            match (if jsIncludes lower "book" || jsIncludes lower "reserve" ||
                jsIncludes lower "schedule" then env.cfg.bookingLink else none) with
            | some bl =>
              replyResult env .booking
                ("Ready to book? <a href='" ++ bl ++
                  "' target='_blank' style='color: " ++ brand ++
                  "; text-decoration: underline;'>Click here to book online</a>")
            | none =>
              match (if env.cfg.smsEnabled == some "sms-first" then i.phoneMatch else none) with
              | some p => smsFirstPhoneResult env p
              | none =>
                match (if jsIncludes lower "meet" || jsIncludes lower "location" ||
                    jsIncludes lower "where" then
                    (env.cfg.location.filter fun l => jsTrim l != "") else none) with
                | some l =>
                  replyResult env .locationInfo
                    ("We meet at " ++ l ++
                      ". If you need more specific directions or landmarks, please speak to someone from our team!")
                | none =>
                  if jsIncludes lower "time" || jsIncludes lower "schedule" ||
                      jsIncludes lower "when" then
                    match env.cfg.bookingLink.filter (fun bl => jsTrim bl != "") with
                    | some bl =>
                      replyResult env .timesInfo
                        ("For current tour times and availability, please check our booking system: <a href='"
                          ++ bl ++ "' target='_blank' style='color: " ++ brand ++
                          "; text-decoration: underline;'>View schedule and book here</a>")
                    | none =>
                      let validTimes := env.cfg.times.filter fun t => jsTrim t != ""
                      if env.cfg.times.length > 0 && validTimes.length > 0 then
                        replyResult env .timesInfo
                          ("Our tours typically run at: " ++ String.intercalate ", " validTimes ++
                            ". For current availability and to book, please speak to someone from our team!")
                      else llmResult env
                  else llmResult env

/-- The environment as the next request to the same session sees it: the
in-memory maps carry over, the configuration and capability oracles are
unchanged. -/
def applyResult (env : ChatEnv) (r : ChatResult) : ChatEnv :=
  { env with memContact := r.memContactAfter, handoffFlag := r.handoffFlagAfter }

/-- Outbound notification calls (email or SMS) one request performed. -/
def notifications (r : ChatResult) : Nat :=
  (if r.emailSent then 1 else 0) + (if r.smsAttempted then 1 else 0)

/-- A transcript message: role and content, in timestamp/insertion order. -/
structure Msg where
  role : String
  content : String
  deriving Repr, DecidableEq

/-- Whether the polling endpoint forwards a message to the customer client:
only operator and system messages (server.js lines 1487-1489). -/
def isRelevantRole (m : Msg) : Bool :=
  m.role == "operator" || m.role == "system"

/-- The reply of `/api/chat/poll-messages` (server.js lines 1441-1529) on a
conversation with ordered transcript `msgs` and client cursor
`lastMessageCount`: `allMessages.slice(lastMessageCount)` filtered to
operator/system roles, plus the total message count. -/
structure PollReply where
  newMessages : List Msg
  totalMessages : Nat
  deriving Repr, DecidableEq

/-- `/api/chat/poll-messages` as a pure function of the stored transcript. -/
def pollMessages (msgs : List Msg) (lastMessageCount : Nat) : PollReply :=
  let allMessages := msgs
  let newMessages := allMessages.drop lastMessageCount
  let relevantNewMessages := newMessages.filter isRelevantRole
  { newMessages := relevantNewMessages, totalMessages := allMessages.length }

/-- The conversation state `/api/dashboard/send-message` acts on. -/
structure Conv where
  msgs : List Msg
  status : String
  deriving Repr, DecidableEq

/-- The one-time system message injected before the first operator message. -/
def joinedMsgText : String :=
  "👨‍💼 A team member has joined the chat to assist you personally!"

/-- The first-operator-message test of `/api/dashboard/send-message`
(server.js lines 1927-1932): no operator-role message stored yet. -/
def isFirstOperatorMessage (c : Conv) : Bool :=
  c.msgs.countP (fun m => m.role == "operator") == 0

/-- `/api/dashboard/send-message` (server.js lines 1895-2008) as a pure state
transition: insert the one-time system message when this is the first
operator message, append the operator message, and flip status
`new → in_progress` (leaving any other status unchanged). -/
def dashboardSendMessage (c : Conv) (text : String) : Conv :=
  let first := isFirstOperatorMessage c
  let msgs1 := if first then c.msgs ++ [{ role := "system", content := joinedMsgText }] else c.msgs
  let msgs2 := msgs1 ++ [{ role := "operator", content := text }]
  let status2 := if c.status == "new" then "in_progress" else c.status
  { msgs := msgs2, status := status2 }

/-- The conversation row's contact columns. -/
structure DbContact where
  email : Option String := none
  phone : Option String := none
  smsNumber : Option String := none
  deriving Repr, DecidableEq

/-- `updateCustomerContact(sessionKey, email, phone, smsNumber)` (server.js
lines 355-394): each argument updates its column only when truthy, so `none`
(JS `null`) leaves the column untouched. -/
def updateCustomerContact (r : DbContact) (email phone smsNumber : Option String) :
    DbContact :=
  { email := match email with | some e => some e | none => r.email,
    phone := match phone with | some p => some p | none => r.phone,
    smsNumber := match smsNumber with | some s => some s | none => r.smsNumber }

/-- The outcome of `/contact-info` (server.js lines 1600-1644) on already
validated input: the in-memory record is replaced wholesale
(`customerContacts[sessionKey] = { email, phone }`), while the database row
goes through `updateCustomerContact`. -/
structure ContactInfoOutcome where
  memAfter : Option Contact
  dbAfter : DbContact
  deriving Repr, DecidableEq

/-- `/contact-info` as a pure function of the two stores. -/
def contactInfoEndpoint (mem : Option Contact) (db : DbContact)
    (email phone : Option String) : ContactInfoOutcome :=
  { memAfter := some { email := email, phone := phone },
    dbAfter := updateCustomerContact db email phone none }

/-- An entry of the in-memory `conversations` map: either the message array
of a session (which carries a `lastActivity` timestamp) or the boolean
`handoff_<sessionKey>` flag (which has no `lastActivity` property). -/
inductive CacheEntry where
  | history (lastActivity : Nat)
  | flag (b : Bool)
  deriving Repr, DecidableEq

/-- `conversations[key].lastActivity` as the sweep reads it: `none` models a
JS falsy read (the property is absent on a boolean entry; `some 0` is falsy
too and is folded into the deletion test below). -/
def entryLastActivity : CacheEntry → Option Nat
  | .history t => some t
  | .flag _ => none

/-- The hourly cleanup's per-entry deletion test (server.js lines 119-127):
`!conversations[key].lastActivity || conversations[key].lastActivity < cutoffTime`. -/
def sweepDeletes (cutoffTime : Nat) (e : CacheEntry) : Bool :=
  match entryLastActivity e with
  | none => true
  | some t => t == 0 || t < cutoffTime

/-- One run of the hourly cleanup over the `conversations` map (modelled as an
association list): every entry whose deletion test holds is removed. -/
def cleanupSweep (cutoffTime : Nat) (m : List (String × CacheEntry)) :
    List (String × CacheEntry) :=
  m.filter fun kv => !sweepDeletes cutoffTime kv.snd

/-- `conversations['handoff_' + sessionKey] || false` read from the map. -/
def handoffFlagOf (m : List (String × CacheEntry)) (key : String) : Bool :=
  match m.lookup key with
  | some (.flag b) => b
  | _ => false

/-- `joinedCount c`: how many copies of the one-time "team member has joined"
system message the transcript holds. -/
def joinedCount (c : Conv) : Nat :=
  c.msgs.countP fun m => m.role == "system" && m.content == joinedMsgText

/-- A conversation whose handoff flag is set, with a working completion
capability: the environment of the C1 counterexample. -/
def exEnvHandoff : ChatEnv :=
  { cfg := {}, handoffFlag := true, dbAgentRequested := true,
    emailTransporter := true, llmText := some "We run tours daily at 9am." }

/-- A generic customer message matching none of the follow-up patterns. -/
def exMsgHello : ChatInput := { message := "hello there" }

/-- An operator configured with `alertPreference = 'none'`. -/
def exEnvNone : ChatEnv :=
  { cfg := { alertPreference := some "none" }, emailTransporter := true }

/-- A plain agent-request message. -/
def exMsgHuman : ChatInput := { message := "I want to speak to a human" }

/-- A fresh conversation for the notification-idempotence trace. -/
def exEnvNotify : ChatEnv := { cfg := {}, emailTransporter := true }

/-- An agent-request message that also contains an email address (the email
regex matches). -/
def exMsgEmailAgent : ChatInput :=
  { message := "you can reach me at bob@example.com, i want to speak to a human",
    emailMatch := some "bob@example.com" }

/-- A weather-enabled operator whose conversation already has an active
handoff, with a successful weather lookup. -/
def exEnvWeather : ChatEnv :=
  { cfg := { weatherEnabled := true, weatherLocation := some "Key West" },
    handoffFlag := true, weatherOk := true,
    weatherReplyText := some "🌤️ Current weather: 75°F and sunny!",
    userMessageCount := 2, emailTransporter := true }

/-- A weather question. -/
def exMsgWeather : ChatInput := { message := "how is the weather today" }

/-- The five-message transcript of the polling example: indices 3 and 4 are
the operator/system messages. -/
def exPollMsgs : List Msg :=
  [{ role := "user", content := "hi" },
   { role := "assistant", content := "hello" },
   { role := "user", content := "agent please" },
   { role := "operator", content := "o1" },
   { role := "system", content := "s1" }]

/-- The in-memory `conversations` map after an escalation: the session's
message array (with a `lastActivity` timestamp) and the bare boolean handoff
flag. -/
def exCache : List (String × CacheEntry) :=
  [("abc_default", CacheEntry.history 200),
   ("handoff_abc_default", CacheEntry.flag true)]

/-- The environment of the next request after the hourly sweep has run on
`exCache`: the handoff flag is re-read from the swept map, while the durable
`agent_requested` column still says the conversation escalated. -/
def exEnvAfterSweep : ChatEnv :=
  { cfg := {},
    handoffFlag := handoffFlagOf (cleanupSweep 100 exCache) "handoff_abc_default",
    dbAgentRequested := true,
    llmText := some "We run tours daily at 9am." }

/-- Every result the escalation follow-up block returns is a fixed
acknowledgment or contact-capture outcome: it never invokes the completion
capability and never re-enters the initial escalation branch. -/
theorem handoffFollowUp_some_inv (env : ChatEnv) (i : ChatInput) (lower : String)
    (agentReq : Bool) (r : ChatResult)
    (h : handoffFollowUp env i lower agentReq = some r) :
    r.llmCalled = false ∧ r.agentMarked = false ∧ r.branch ≠ .initialHandoff := by
  simp only [handoffFollowUp] at h
  repeat' split at h
  all_goals cases h <;>
    simp [textChoiceResult, phoneHybridResult, continueChatResult, emailCaptureResult,
      phoneDisabledResult, repeatRequestResult, replyResult]

/-- When the escalation follow-up block falls through, the message was no
agent request and contained no email address. -/
theorem handoffFollowUp_none_inv (env : ChatEnv) (i : ChatInput) (lower : String)
    (agentReq : Bool)
    (h : handoffFollowUp env i lower agentReq = none) :
    agentReq = false ∧ i.emailMatch = none := by
  simp only [handoffFollowUp] at h
  repeat' split at h
  all_goals simp_all

/-- C1 (amended): once the in-memory handoff flag is set, every customer
message that is an agent request or contains an email address is settled by
the escalation follow-up block — it never produces a fresh LLM completion and
never re-runs initial escalation.  (The claim as stated, covering *every*
subsequent message, is refuted by `escalation_llm_refuted`: a message matching
none of the follow-up patterns falls through to the free-form Claude
branch.) -/
theorem escalationFollowUp_suppresses_llm (env : ChatEnv) (i : ChatInput)
    (hflag : env.handoffFlag = true)
    (hmatch : isAgentRequest env.cfg (jsToLower i.message) = true
      ∨ i.emailMatch.isSome = true) :
    (chatStep env i).llmCalled = false ∧ (chatStep env i).agentMarked = false := by
  cases hres : handoffFollowUp env i (jsToLower i.message)
      (isAgentRequest env.cfg (jsToLower i.message)) with
  | none =>
    exfalso
    have hni := handoffFollowUp_none_inv _ _ _ _ hres
    rcases hmatch with hm | hm
    · rw [hni.1] at hm
      exact Bool.noConfusion hm
    · rw [hni.2] at hm
      simp at hm
  | some r =>
    have hs := handoffFollowUp_some_inv _ _ _ _ _ hres
    have hstep : chatStep env i = r := by
      simp [chatStep, hflag, hres]
    rw [hstep]
    exact ⟨hs.1, hs.2.1⟩

/-- C1 counterexample: with the handoff flag active, the generic message
"hello there" matches no follow-up pattern, falls through the escalation
block, and receives a fresh Claude completion — the chat endpoint does
produce an AI-generated reply after escalation has begun. -/
theorem escalation_llm_refuted :
    exEnvHandoff.handoffFlag = true
    ∧ (chatStep exEnvHandoff exMsgHello).llmCalled = true
    ∧ (chatStep exEnvHandoff exMsgHello).branch = Branch.llmReply
    ∧ (chatStep exEnvHandoff exMsgHello).reply = some "We run tours daily at 9am." := by
  decide

/-- C1 witness: the amended theorem applied to a concrete agent request on an
escalated conversation. -/
theorem escalationFollowUp_suppresses_llm_witness :
    (chatStep { cfg := {}, handoffFlag := true } exMsgHuman).llmCalled = false
    ∧ (chatStep { cfg := {}, handoffFlag := true } exMsgHuman).agentMarked = false :=
  escalationFollowUp_suppresses_llm { cfg := {}, handoffFlag := true } exMsgHuman
    (by decide) (Or.inl (by decide))

/-- C2 (amended): in the part_000 revision of the chat endpoint, an operator
configured with `alertPreference = 'none'` never escalates on an agent
request: no handoff email, no SMS, the agent-requested flag and the handoff
flag stay unset, and the reply is the self-service deflection.  (In the
server.js revision there is no `alertPreference` check at all, refuted by
`alertPreference_none_ignored_refuted`.) -/
theorem alertPreference_none_suppresses_escalation (env : ChatEnv) (i : ChatInput)
    (hap : env.cfg.alertPreference = some "none")
    (hflag : env.handoffFlag = false)
    (hreq : isAgentRequest env.cfg (jsToLower i.message) = true)
    (hwx : env.cfg.weatherEnabled = false)
    (hcount : env.userMessageCount ≠ 1) :
    (chatStepV0 env i).branch = Branch.aiOnly
    ∧ (chatStepV0 env i).emailSent = false
    ∧ (chatStepV0 env i).smsAttempted = false
    ∧ (chatStepV0 env i).agentMarked = false
    ∧ (chatStepV0 env i).handoffFlagAfter = false := by
  have hstep : chatStepV0 env i = aiOnlyResult env := by
    simp [chatStepV0, weatherBranch, hap, hflag, hreq, hwx, hcount]
  rw [hstep]
  simp [aiOnlyResult, replyResult, hflag]

/-- C2 counterexample: in server.js the same configuration
(`alertPreference = 'none'`) still escalates a "speak to a human" message —
the agent-requested flag is marked, the handoff flag is set, and the handoff
email is sent. -/
theorem alertPreference_none_ignored_refuted :
    exEnvNone.cfg.alertPreference = some "none"
    ∧ isAgentRequest exEnvNone.cfg (jsToLower exMsgHuman.message) = true
    ∧ (chatStep exEnvNone exMsgHuman).agentMarked = true
    ∧ (chatStep exEnvNone exMsgHuman).emailSent = true
    ∧ (chatStep exEnvNone exMsgHuman).handoffFlagAfter = true := by
  decide

/-- C2 witness: the amended theorem applied to a concrete configuration and
message. -/
theorem alertPreference_none_suppresses_escalation_witness :
    (chatStepV0 { cfg := { alertPreference := some "none" }, userMessageCount := 2 } exMsgHuman).branch = Branch.aiOnly
    ∧ (chatStepV0 { cfg := { alertPreference := some "none" }, userMessageCount := 2 } exMsgHuman).emailSent = false
    ∧ (chatStepV0 { cfg := { alertPreference := some "none" }, userMessageCount := 2 } exMsgHuman).smsAttempted = false
    ∧ (chatStepV0 { cfg := { alertPreference := some "none" }, userMessageCount := 2 } exMsgHuman).agentMarked = false
    ∧ (chatStepV0 { cfg := { alertPreference := some "none" }, userMessageCount := 2 } exMsgHuman).handoffFlagAfter = false :=
  alertPreference_none_suppresses_escalation
    { cfg := { alertPreference := some "none" }, userMessageCount := 2 } exMsgHuman
    rfl rfl (by decide) rfl (by decide)

/-- C3 (amended): for an agent-request message that matches no
contact-capture or channel-choice pattern (no email or phone in the text, no
"text"/"sms", no continue-chat phrasing), the first request triggers at most
one outbound notification and the identical repeat lands in the repeat branch:
a fixed "already notified" acknowledgment with zero notification calls.  (The
claim as stated, covering *every* agent-request message, is refuted by
`repeat_notification_refuted`: a repeated agent request embedding an email
address re-sends the handoff email on every repetition.) -/
theorem repeat_agent_request_idempotent (env : ChatEnv) (i : ChatInput)
    (hflag : env.handoffFlag = false)
    (hreq : isAgentRequest env.cfg (jsToLower i.message) = true)
    (hmail : i.emailMatch = none)
    (hphone : i.phoneMatch = none)
    (htext : jsIncludes (jsToLower i.message) "text" = false)
    (hsms : jsIncludes (jsToLower i.message) "sms" = false)
    (hcont : jsIncludes (jsToLower i.message) "continue chatting" = false)
    (hchat : jsIncludes (jsToLower i.message) "chat here" = false)
    (hpref : (jsIncludes (jsToLower i.message) "prefer"
      && jsIncludes (jsToLower i.message) "here") = false) :
    notifications (chatStep env i) ≤ 1
    ∧ (chatStep (applyResult env (chatStep env i)) i).branch = Branch.hRepeatRequest
    ∧ notifications (chatStep (applyResult env (chatStep env i)) i) = 0
    ∧ (chatStep (applyResult env (chatStep env i)) i).reply
        = some ("Our team has already been notified and will reach out within "
            ++ env.cfg.responseTime.getD defaultResponseTime
            ++ "! Is there anything else I can help you with while you wait, or would you like me to provide our direct contact information?") := by
  have hstep1 : chatStep env i = initialHandoffResult env := by
    simp [chatStep, hflag, hreq]
  have hstep2 : chatStep (applyResult env (initialHandoffResult env)) i
      = repeatRequestResult (applyResult env (initialHandoffResult env)) := by
    simp [chatStep, applyResult, initialHandoffResult, handoffFollowUp, hreq, hmail,
      hphone, htext, hsms, hcont, hchat, hpref]
  refine ⟨?_, ?_, ?_, ?_⟩
  · rw [hstep1]
    simp only [notifications, initialHandoffResult]
    split <;> simp
  · rw [hstep1, hstep2]
    simp [repeatRequestResult, replyResult]
  · rw [hstep1, hstep2]
    simp [notifications, repeatRequestResult, replyResult]
  · rw [hstep1, hstep2]
    simp [repeatRequestResult, replyResult, applyResult]

/-- C3 counterexample: the identical agent-request message carrying an email
address, sent three times in a row, lands in the email-capture branch on the
second and third requests — the stored contact does not change between them,
yet each repetition sends another handoff email instead of the fixed
"already notified" acknowledgment. -/
theorem repeat_notification_refuted :
    notifications (chatStep (applyResult exEnvNotify (chatStep exEnvNotify exMsgEmailAgent)) exMsgEmailAgent) = 1
    ∧ notifications (chatStep (applyResult (applyResult exEnvNotify (chatStep exEnvNotify exMsgEmailAgent)) (chatStep (applyResult exEnvNotify (chatStep exEnvNotify exMsgEmailAgent)) exMsgEmailAgent)) exMsgEmailAgent) = 1
    ∧ (chatStep (applyResult exEnvNotify (chatStep exEnvNotify exMsgEmailAgent)) exMsgEmailAgent).memContactAfter
        = (chatStep (applyResult (applyResult exEnvNotify (chatStep exEnvNotify exMsgEmailAgent)) (chatStep (applyResult exEnvNotify (chatStep exEnvNotify exMsgEmailAgent)) exMsgEmailAgent)) exMsgEmailAgent).memContactAfter
    ∧ (chatStep (applyResult (applyResult exEnvNotify (chatStep exEnvNotify exMsgEmailAgent)) (chatStep (applyResult exEnvNotify (chatStep exEnvNotify exMsgEmailAgent)) exMsgEmailAgent)) exMsgEmailAgent).branch = Branch.hEmailCapture
    ∧ isAgentRequest exEnvNotify.cfg (jsToLower exMsgEmailAgent.message) = true := by
  decide

/-- C3 witness: the amended theorem applied to the plain agent request
"I want to speak to a human" on a fresh conversation. -/
theorem repeat_agent_request_idempotent_witness :
    notifications (chatStep exEnvNotify exMsgHuman) ≤ 1
    ∧ (chatStep (applyResult exEnvNotify (chatStep exEnvNotify exMsgHuman)) exMsgHuman).branch = Branch.hRepeatRequest
    ∧ notifications (chatStep (applyResult exEnvNotify (chatStep exEnvNotify exMsgHuman)) exMsgHuman) = 0
    ∧ (chatStep (applyResult exEnvNotify (chatStep exEnvNotify exMsgHuman)) exMsgHuman).reply
        = some ("Our team has already been notified and will reach out within "
            ++ exEnvNotify.cfg.responseTime.getD defaultResponseTime
            ++ "! Is there anything else I can help you with while you wait, or would you like me to provide our direct contact information?") :=
  repeat_agent_request_idempotent exEnvNotify exMsgHuman rfl (by decide) rfl rfl
    (by decide) (by decide) (by decide) (by decide) (by decide)

/-- C4 (amended): the branch precedence that actually holds.  In server.js,
an active handoff is checked before the initial agent-request branch (which
is then unreachable), and agent request precedes waiver; in the part_000
revision the weather branch runs *before* the handoff check, so a weather
question is answered by the weather branch even while a handoff is active.
(The claim as stated — handoff first, weather after booking — is refuted by
`branch_precedence_refuted`.) -/
theorem branch_precedence :
    (∀ (env : ChatEnv) (i : ChatInput), env.handoffFlag = true →
      (chatStep env i).agentMarked = false
      ∧ (chatStep env i).branch ≠ Branch.initialHandoff)
    ∧ (∀ (env : ChatEnv) (i : ChatInput) (wr : String),
        env.cfg.weatherEnabled = true →
        weatherKeywords.any (fun keyword => jsIncludes (jsToLower i.message) keyword) = true →
        env.weatherOk = true → env.weatherReplyText = some wr →
        env.userMessageCount ≠ 1 →
        (chatStepV0 env i).branch = Branch.weatherReply
        ∧ (chatStepV0 env i).reply = some wr)
    ∧ (∀ (env : ChatEnv) (i : ChatInput),
        env.handoffFlag = false →
        isAgentRequest env.cfg (jsToLower i.message) = false →
        jsIncludes (jsToLower i.message) "waiver" = true →
        (chatStep env i).branch = Branch.waiver) := by
  refine ⟨?_, ?_, ?_⟩
  · intro env i hflag
    cases hres : handoffFollowUp env i (jsToLower i.message)
        (isAgentRequest env.cfg (jsToLower i.message)) with
    | none =>
      have hstep : chatStep env i
          = (if jsIncludes (jsToLower i.message) "waiver" || jsIncludes (jsToLower i.message) "form" ||
                jsIncludes (jsToLower i.message) "sign" || jsIncludes (jsToLower i.message) "release" then
              waiverResult env
            else
              match (if jsIncludes (jsToLower i.message) "price" || jsIncludes (jsToLower i.message) "cost" ||
                  jsIncludes (jsToLower i.message) "pricing" then env.cfg.bookingLink else none) with
              | some bl => pricingResult env bl
              | none =>
                match (if jsIncludes (jsToLower i.message) "book" || jsIncludes (jsToLower i.message) "reserve" ||
                    jsIncludes (jsToLower i.message) "schedule" then env.cfg.bookingLink else none) with
                | some bl => bookingResult env bl
                | none => llmResult env) := by
        simp [chatStep, hflag, hres]
      rw [hstep]
      refine ⟨?_, ?_⟩ <;>
        (repeat' split) <;>
        (cases hllm : env.llmText <;>
          simp [waiverResult, pricingResult, bookingResult, llmResult, replyResult, hllm])
    | some r =>
      have hs := handoffFollowUp_some_inv _ _ _ _ _ hres
      have hstep : chatStep env i = r := by
        simp [chatStep, hflag, hres]
      rw [hstep]
      exact ⟨hs.2.1, hs.2.2⟩
  · intro env i wr hwe hkw hwok hwr hcount
    have hstep : chatStepV0 env i = replyResult env Branch.weatherReply wr := by
      simp [chatStepV0, weatherBranch, hwe, hkw, hwok, hwr, hcount]
    rw [hstep]
    simp [replyResult]
  · intro env i hflag hreq hw
    have hstep : chatStep env i = waiverResult env := by
      simp [chatStep, hflag, hreq, hw]
    rw [hstep]
    simp [waiverResult, replyResult]

/-- C4 counterexample: in part_000 a weather question on a conversation whose
handoff is already active is answered by the weather branch, not by the
escalation follow-up — the active-handoff check is not first and does not
skip the weather branch. -/
theorem branch_precedence_refuted :
    exEnvWeather.handoffFlag = true
    ∧ exEnvWeather.cfg.weatherEnabled = true
    ∧ (chatStepV0 exEnvWeather exMsgWeather).branch = Branch.weatherReply
    ∧ (chatStepV0 exEnvWeather exMsgWeather).reply = some "🌤️ Current weather: 75°F and sunny!" := by
  decide

/-- Dropping a prefix and then filtering a transcript is the same as keeping
exactly the filtered elements whose enumerated index clears the cursor. -/
theorem drop_filter_enumFrom (p : Msg → Bool) :
    ∀ (msgs : List Msg) (k n : Nat),
      (msgs.drop n).filter p
        = ((msgs.enumFrom k).filter fun q => decide (k + n ≤ q.1) && p q.2).map Prod.snd := by
  intro msgs
  induction msgs with
  | nil => intro k n; simp
  | cons m ms ih =>
    intro k n
    cases n with
    | zero =>
      have htail : (ms.enumFrom (k + 1)).filter (fun q => decide (k + 0 ≤ q.1) && p q.2)
          = (ms.enumFrom (k + 1)).filter (fun q => decide (k + 1 + 0 ≤ q.1) && p q.2) := by
        apply List.filter_congr
        intro q hq
        have hle := List.le_fst_of_mem_enumFrom hq
        have h1 : k + 0 ≤ q.1 := by omega
        have h2 : k + 1 + 0 ≤ q.1 := by omega
        rw [decide_eq_true h1, decide_eq_true h2]
      have ih0 := ih (k + 1) 0
      simp only [List.drop_zero] at ih0
      simp only [List.drop_zero, List.enumFrom_cons, List.filter_cons, htail]
      cases hp : p m with
      | true => simp [hp, ih0]
      | false => simp [hp, ih0]
    | succ n =>
      have h3 : k + (n + 1) = k + 1 + n := by omega
      simp only [List.drop_succ_cons, List.enumFrom_cons, List.filter_cons]
      rw [h3]
      have h4 : ¬ (k + 1 + n ≤ k) := by omega
      simp only [h4, decide_False, Bool.false_and, Bool.false_eq_true, if_false]
      exact ih (k + 1) n

/-- C5: the polling endpoint returns exactly the operator/system messages
whose index is at least the cursor, together with the total message count; in
particular, on the five-message example with cursor 2 it returns exactly the
operator/system messages at indices 3 and 4 and total 5, never replaying
already-seen messages. -/
theorem poll_returns_exactly_unseen :
    (∀ (msgs : List Msg) (lastSeenCount : Nat),
      (pollMessages msgs lastSeenCount).newMessages
        = ((msgs.enum.filter fun q =>
            decide (lastSeenCount ≤ q.1) && isRelevantRole q.2).map Prod.snd)
      ∧ (pollMessages msgs lastSeenCount).totalMessages = msgs.length)
    ∧ pollMessages exPollMsgs 2
        = { newMessages := [{ role := "operator", content := "o1" },
              { role := "system", content := "s1" }],
            totalMessages := 5 } := by
  constructor
  · intro msgs n
    constructor
    · have h := drop_filter_enumFrom isRelevantRole msgs 0 n
      simpa [pollMessages, List.enum] using h
    · rfl
  · decide

/-- An operator message on a conversation that already has one keeps the
joined-count, keeps the no-longer-first flag, and maps the status through the
new-to-in-progress rule. -/
theorem dashboardSendMessage_preserved (c : Conv) (u : String)
    (hfirst : isFirstOperatorMessage c = false) :
    joinedCount (dashboardSendMessage c u) = joinedCount c
    ∧ isFirstOperatorMessage (dashboardSendMessage c u) = false
    ∧ (dashboardSendMessage c u).status
        = (if c.status == "new" then "in_progress" else c.status) := by
  refine ⟨?_, ?_, ?_⟩
  · simp [dashboardSendMessage, hfirst, joinedCount, List.countP_append]
  · simp only [dashboardSendMessage, hfirst, if_false, isFirstOperatorMessage,
      List.countP_append] at hfirst ⊢
    simp_all [List.countP_cons]
  · simp [dashboardSendMessage]

/-- Iterating operator messages from the joined state keeps exactly one
joined message and the in-progress status. -/
theorem foldl_sendMessage_invariant (ts : List String) :
    ∀ (c : Conv), isFirstOperatorMessage c = false → joinedCount c = 1 →
      c.status = "in_progress" →
      (ts.foldl dashboardSendMessage c).status = "in_progress"
      ∧ joinedCount (ts.foldl dashboardSendMessage c) = 1 := by
  induction ts with
  | nil =>
    intro c h1 h2 h3
    simpa [h3] using h2
  | cons u us ih =>
    intro c h1 h2 h3
    simp only [List.foldl_cons]
    have hp := dashboardSendMessage_preserved c u h1
    apply ih
    · exact hp.2.1
    · rw [hp.1, h2]
    · rw [hp.2.2, h3]
      simp

/-- C6: on a fresh conversation (status `new`, no operator messages, no
joined message) the first operator message inserts the one-time joined system
message and flips status to `in_progress`; any further operator messages
leave the joined-count at one and keep the status `in_progress`; and on any
conversation that already has an operator message, sending again never
re-inserts the system message and never changes a non-`new` status. -/
theorem operator_join_fires_once (c : Conv) (t : String) (ts : List String)
    (hfirst : isFirstOperatorMessage c = true)
    (hstatus : c.status = "new")
    (hjoined : joinedCount c = 0) :
    ((dashboardSendMessage c t).status = "in_progress"
      ∧ joinedCount (dashboardSendMessage c t) = 1
      ∧ isFirstOperatorMessage (dashboardSendMessage c t) = false)
    ∧ ((ts.foldl dashboardSendMessage (dashboardSendMessage c t)).status = "in_progress"
      ∧ joinedCount (ts.foldl dashboardSendMessage (dashboardSendMessage c t)) = 1)
    ∧ (∀ (d : Conv) (u : String), isFirstOperatorMessage d = false →
        joinedCount (dashboardSendMessage d u) = joinedCount d
        ∧ (d.status ≠ "new" → (dashboardSendMessage d u).status = d.status)) := by
  have hone : (dashboardSendMessage c t).status = "in_progress"
      ∧ joinedCount (dashboardSendMessage c t) = 1
      ∧ isFirstOperatorMessage (dashboardSendMessage c t) = false := by
    refine ⟨?_, ?_, ?_⟩
    · simp [dashboardSendMessage, hstatus]
    · simp [dashboardSendMessage, hfirst, joinedCount, List.countP_append,
        List.countP_cons, joinedMsgText] at hjoined ⊢
      exact hjoined
    · simp [dashboardSendMessage, hfirst, isFirstOperatorMessage, List.countP_append,
        List.countP_cons]
  refine ⟨hone, ?_, ?_⟩
  · exact foldl_sendMessage_invariant ts _ hone.2.2 hone.2.1 hone.1
  · intro d u hd
    have hp := dashboardSendMessage_preserved d u hd
    refine ⟨hp.1, fun hne => ?_⟩
    rw [hp.2.2]
    simp [hne]

/-- C6 witness: the theorem applied to a one-message fresh conversation and a
two-message operator trace. -/
theorem operator_join_fires_once_witness :
    ((dashboardSendMessage { msgs := [{ role := "user", content := "hi" }], status := "new" } "hello").status = "in_progress"
      ∧ joinedCount (dashboardSendMessage { msgs := [{ role := "user", content := "hi" }], status := "new" } "hello") = 1
      ∧ isFirstOperatorMessage (dashboardSendMessage { msgs := [{ role := "user", content := "hi" }], status := "new" } "hello") = false)
    ∧ ((["ok"].foldl dashboardSendMessage (dashboardSendMessage { msgs := [{ role := "user", content := "hi" }], status := "new" } "hello")).status = "in_progress"
      ∧ joinedCount (["ok"].foldl dashboardSendMessage (dashboardSendMessage { msgs := [{ role := "user", content := "hi" }], status := "new" } "hello")) = 1)
    ∧ (∀ (d : Conv) (u : String), isFirstOperatorMessage d = false →
        joinedCount (dashboardSendMessage d u) = joinedCount d
        ∧ (d.status ≠ "new" → (dashboardSendMessage d u).status = d.status)) :=
  operator_join_fires_once { msgs := [{ role := "user", content := "hi" }], status := "new" }
    "hello" ["ok"] (by decide) rfl (by decide)

/-- C7 (amended): the database update and the chat-path in-memory capture
update contact fields independently — recording an email leaves the stored
phone and SMS number unchanged and vice versa — but the `/contact-info`
endpoint replaces the whole in-memory record with `{ email, phone }` as
submitted.  (The claim as stated, covering every capture path, is refuted by
`contact_overwrite_refuted`: submitting only an email through `/contact-info`
drops a previously captured phone from the in-memory store.) -/
theorem contact_fields_update_independently :
    (∀ (r : DbContact) (e : String),
      (updateCustomerContact r (some e) none none).phone = r.phone
      ∧ (updateCustomerContact r (some e) none none).smsNumber = r.smsNumber
      ∧ (updateCustomerContact r (some e) none none).email = some e)
    ∧ (∀ (r : DbContact) (p : String),
      (updateCustomerContact r none (some p) none).email = r.email
      ∧ (updateCustomerContact r none (some p) none).smsNumber = r.smsNumber
      ∧ (updateCustomerContact r none (some p) none).phone = some p)
    ∧ (∀ (mc : Option Contact) (e : String),
      (mergeEmail mc e).bind Contact.phone = mc.bind Contact.phone
      ∧ (mergeEmail mc e).bind Contact.email = some e)
    ∧ (∀ (mc : Option Contact) (p : String),
      (mergePhone mc p).bind Contact.email = mc.bind Contact.email
      ∧ (mergePhone mc p).bind Contact.phone = some p)
    ∧ (∀ (mem : Option Contact) (db : DbContact) (e : String),
      (contactInfoEndpoint mem db (some e) none).memAfter
          = some { email := some e, phone := none }
      ∧ (contactInfoEndpoint mem db (some e) none).dbAfter.phone = db.phone) := by
  refine ⟨?_, ?_, ?_, ?_, ?_⟩
  · intro r e
    simp [updateCustomerContact]
  · intro r p
    simp [updateCustomerContact]
  · intro mc e
    cases mc <;> simp [mergeEmail]
  · intro mc p
    cases mc <;> simp [mergePhone]
  · intro mem db e
    simp [contactInfoEndpoint, updateCustomerContact]

/-- C7 counterexample: the in-memory store held a phone number; submitting
only a new email through `/contact-info` leaves the in-memory record with no
phone at all (while the database column survives). -/
theorem contact_overwrite_refuted :
    ((some { phone := some "+15551234567" } : Option Contact).bind Contact.phone
        = some "+15551234567")
    ∧ (contactInfoEndpoint (some { phone := some "+15551234567" })
        { phone := some "+15551234567" } (some "bob@example.com") none).memAfter.bind
          Contact.phone = none
    ∧ (contactInfoEndpoint (some { phone := some "+15551234567" })
        { phone := some "+15551234567" } (some "bob@example.com") none).dbAfter.phone
        = some "+15551234567" := by
  decide

/-- C8: when the Claude completion fails, the free-form branch replies with
the one fixed fallback sentence, persists it as an assistant message, and
still answers the HTTP request with success. -/
theorem llm_failure_fallback (env : ChatEnv) (i : ChatInput)
    (hllm : env.llmText = none)
    (hflag : env.handoffFlag = false)
    (hreq : isAgentRequest env.cfg (jsToLower i.message) = false)
    (hw1 : jsIncludes (jsToLower i.message) "waiver" = false)
    (hw2 : jsIncludes (jsToLower i.message) "form" = false)
    (hw3 : jsIncludes (jsToLower i.message) "sign" = false)
    (hw4 : jsIncludes (jsToLower i.message) "release" = false)
    (hbl : env.cfg.bookingLink = none) :
    (chatStep env i).llmCalled = true
    ∧ (chatStep env i).reply = some llmFallbackText
    ∧ (chatStep env i).savedAssistant = some llmFallbackText
    ∧ (chatStep env i).success = true
    ∧ (chatStep env i).branch = Branch.llmFallback := by
  have hstep : chatStep env i = llmResult env := by
    simp [chatStep, hflag, hreq, hw1, hw2, hw3, hw4, hbl]
  rw [hstep]
  simp [llmResult, hllm, replyResult]

/-- C8 witness: the fallback path evaluated on a concrete failing
completion. -/
theorem llm_failure_fallback_witness :
    (chatStep { cfg := {} } exMsgHello).llmCalled = true
    ∧ (chatStep { cfg := {} } exMsgHello).reply = some llmFallbackText
    ∧ (chatStep { cfg := {} } exMsgHello).savedAssistant = some llmFallbackText
    ∧ (chatStep { cfg := {} } exMsgHello).success = true
    ∧ (chatStep { cfg := {} } exMsgHello).branch = Branch.llmFallback :=
  llm_failure_fallback { cfg := {} } exMsgHello rfl rfl (by decide) (by decide)
    (by decide) (by decide) (by decide) rfl

/-- C9: when the SMS send fails during hybrid contact capture, the handler
still stores the captured phone in both stores, persists the assistant reply,
answers with success, and tells the customer the number is saved and the team
will text — the transport failure never reaches the customer. -/
theorem sms_failure_graceful (env : ChatEnv) (i : ChatInput) (p : String)
    (hflag : env.handoffFlag = true)
    (hhybrid : env.cfg.smsEnabled = some "hybrid")
    (hphone : i.phoneMatch = some p)
    (hsms : env.smsOk = false)
    (htext : jsIncludes (jsToLower i.message) "text" = false)
    (htext2 : jsIncludes (jsToLower i.message) "sms" = false) :
    (chatStep env i).smsAttempted = true
    ∧ (chatStep env i).reply
        = some ("I have your number (" ++ p ++ "). Our team will text you shortly!")
    ∧ (chatStep env i).savedAssistant = (chatStep env i).reply
    ∧ (chatStep env i).dbPhone = some p
    ∧ (chatStep env i).memContactAfter = mergePhone env.memContact p
    ∧ (chatStep env i).success = true := by
  have hstep : chatStep env i = phoneHybridResult env p := by
    simp [chatStep, hflag, handoffFollowUp, hhybrid, hphone, htext, htext2]
  rw [hstep]
  simp [phoneHybridResult, hsms]

/-- C9 witness: the graceful-degradation path evaluated on a concrete failing
SMS send. -/
theorem sms_failure_graceful_witness :
    (chatStep { cfg := { smsEnabled := some "hybrid" }, handoffFlag := true }
        { message := "5551234567", phoneMatch := some "5551234567" }).smsAttempted = true
    ∧ (chatStep { cfg := { smsEnabled := some "hybrid" }, handoffFlag := true }
        { message := "5551234567", phoneMatch := some "5551234567" }).reply
        = some ("I have your number (" ++ "5551234567" ++ "). Our team will text you shortly!")
    ∧ (chatStep { cfg := { smsEnabled := some "hybrid" }, handoffFlag := true }
        { message := "5551234567", phoneMatch := some "5551234567" }).savedAssistant
        = (chatStep { cfg := { smsEnabled := some "hybrid" }, handoffFlag := true }
        { message := "5551234567", phoneMatch := some "5551234567" }).reply
    ∧ (chatStep { cfg := { smsEnabled := some "hybrid" }, handoffFlag := true }
        { message := "5551234567", phoneMatch := some "5551234567" }).dbPhone = some "5551234567"
    ∧ (chatStep { cfg := { smsEnabled := some "hybrid" }, handoffFlag := true }
        { message := "5551234567", phoneMatch := some "5551234567" }).memContactAfter
        = mergePhone none "5551234567"
    ∧ (chatStep { cfg := { smsEnabled := some "hybrid" }, handoffFlag := true }
        { message := "5551234567", phoneMatch := some "5551234567" }).success = true :=
  sms_failure_graceful { cfg := { smsEnabled := some "hybrid" }, handoffFlag := true }
    { message := "5551234567", phoneMatch := some "5551234567" } "5551234567"
    rfl rfl rfl rfl (by decide) (by decide)

/-- C10: the "already escalated" decision reads only the process-local map —
the chat step is invariant under the durable `agent_requested` column (which
it never even fetches) — and the hourly sweep deletes every boolean handoff
flag (it has no `lastActivity`), so after a sweep the concrete escalated
conversation is handled as never-escalated and receives a fresh LLM reply. -/
theorem handoff_flag_memory_only :
    (∀ (cutoffTime : Nat) (b : Bool),
      sweepDeletes cutoffTime (CacheEntry.flag b) = true)
    ∧ (∀ (env : ChatEnv) (i : ChatInput) (b : Bool),
        chatStep { env with dbAgentRequested := b } i = chatStep env i)
    ∧ (∀ (env : ChatEnv) (i : ChatInput) (b : Bool),
        chatStepV0 { env with dbAgentRequested := b } i = chatStepV0 env i)
    ∧ (handoffFlagOf exCache "handoff_abc_default" = true
       ∧ handoffFlagOf (cleanupSweep 100 exCache) "handoff_abc_default" = false
       ∧ (cleanupSweep 100 exCache).lookup "abc_default" = some (CacheEntry.history 200)
       ∧ exEnvAfterSweep.dbAgentRequested = true
       ∧ (chatStep exEnvAfterSweep exMsgHello).llmCalled = true
       ∧ (chatStep exEnvAfterSweep exMsgHello).branch = Branch.llmReply) := by
  refine ⟨?_, ?_, ?_, ?_⟩
  · intro cutoffTime b
    rfl
  · intro env i b
    rfl
  · intro env i b
    rfl
  · decide

end Wherewolf
